import Mathlib

/-!
Verification of the seenn-io/node SDK core against its specification.

The definitions below are a shallow embedding of the TypeScript sources:
  - `src/errors.ts`  — the error class hierarchy (`SeennError` and subclasses);
  - `src/http.ts`    — the resilient request executor (`HttpClient.request`,
                       `executeWithRetry`, `handleErrorResponse`);
  - `src/job.ts`     — the `Job` handle (constructor, `updateFromResponse`,
                       the four mutating methods and their request paths);
  - `src/client.ts`  — configuration resolution in the `SeennClient`
                       constructor, `createBatch`, and `eta.getStats`.

Modelling conventions: JavaScript numbers that only ever hold integers are
`Nat`; `Math.random()` and the backoff arithmetic are modelled over `ℚ`;
`Date` values are wrapped parse results of their ISO strings; optional /
possibly-`undefined` values are `Option`; a thrown error is the `error`
side of `Except`.  Falsy-string coalescing (`a || b`) is modelled by
`jsOrString`, which treats the empty string as absent, exactly as `||` does.
-/

namespace Seenn

/-! ## Error taxonomy (src/errors.ts)

One constructor per class.  Constructor arguments are exactly the data the
TypeScript constructor stores beyond what is derivable: `base` is a plain
`SeennError (message, code, statusCode, details)`; the subclasses fix their
`code` and `statusCode`, so only their own parameters are carried. -/

inductive SeennErr where
  | base (message code : String) (statusCode : Nat)
      (details : Option (List (String × String)))
  | validation (message : String) (details : Option (List (String × String)))
  | authentication (message : String)
  | notFound (resource id : String)
  | rateLimit (retryAfter limit remaining : Nat)
deriving DecidableEq

/-- The `statusCode` property of an error object: `ValidationError` fixes
400, `AuthenticationError` 401, `NotFoundError` 404, `RateLimitError` 429,
and a plain `SeennError` carries the code it was constructed with. -/
def SeennErr.statusCode : SeennErr → Nat
  | .base _ _ s _ => s
  | .validation _ _ => 400
  | .authentication _ => 401
  | .notFound _ _ => 404
  | .rateLimit _ _ _ => 429

/-- The `error instanceof RateLimitError` test. -/
def SeennErr.isRateLimit : SeennErr → Bool
  | .rateLimit _ _ _ => true
  | _ => false

/-- The own enumerable properties of each error object, as assigned by the
class constructors in `src/errors.ts`.  Every class assigns `name`,
`message`, `code`, `statusCode` and `details`; `RateLimitError` adds
`retryAfter`, `limit` and `remaining`.  No class ever assigns a property
called `status` — which is what `eta.getStats` probes for. -/
def SeennErr.ownPropNames : SeennErr → List String
  | .rateLimit _ _ _ =>
      ["name", "message", "code", "statusCode", "details",
       "retryAfter", "limit", "remaining"]
  | _ => ["name", "message", "code", "statusCode", "details"]

/-- Dynamic numeric property access `e[k]` on an error object, yielding
`none` for a property that does not exist. -/
def SeennErr.getNumProp (e : SeennErr) (k : String) : Option Nat :=
  if k = "statusCode" then some e.statusCode
  else if k = "retryAfter" then
    match e with | .rateLimit ra _ _ => some ra | _ => none
  else if k = "limit" then
    match e with | .rateLimit _ l _ => some l | _ => none
  else if k = "remaining" then
    match e with | .rateLimit _ _ rem => some rem | _ => none
  else none

/-! ## Error-response classification (src/http.ts, handleErrorResponse) -/

/-- A decodable structured error body, the `error` object of
the response JSON.  A missing `message`/`code` is modelled as the empty
string, which JavaScript's falsy coalescing treats identically. -/
structure ErrorBody where
  code : String
  message : String
  details : Option (List (String × String))
deriving DecidableEq

/-- The parts of an HTTP response that `handleErrorResponse` inspects.
`body` is `none` when the response is not decodable JSON of the error
shape; the three header fields are the already-parsed numeric values of
`Retry-After`, `X-RateLimit-Limit` and `X-RateLimit-Remaining`, `none`
when the header is absent (the code parses `header || default`). -/
structure HttpResponse where
  status : Nat
  statusText : String
  body : Option ErrorBody
  retryAfterHeader : Option Nat
  limitHeader : Option Nat
  remainingHeader : Option Nat
deriving DecidableEq

/-- JavaScript falsy coalescing `a || b` on strings: the empty string is
falsy and is replaced by the fallback. -/
def jsOrString (s t : String) : String := if s = "" then t else s

/-- The resolved message `errorData?.error?.message || response.statusText`. -/
def respMessage (r : HttpResponse) : String :=
  jsOrString ((r.body.map ErrorBody.message).getD "") r.statusText

/-- The resolved code `errorData?.error?.code || "UNKNOWN"`. -/
def respCode (r : HttpResponse) : String :=
  jsOrString ((r.body.map ErrorBody.code).getD "") "UNKNOWN"

/-- The resolved details `errorData?.error?.details`. -/
def respDetails (r : HttpResponse) : Option (List (String × String)) :=
  r.body.bind ErrorBody.details

/-- The id used by the 404 branch: `details?.id as string || "unknown"`. -/
def respDetailsId (r : HttpResponse) : String :=
  jsOrString (((respDetails r).bind (List.lookup "id")).getD "") "unknown"

/-- The status-code switch of `handleErrorResponse`: 400, 401, 404 and 429
map to the dedicated subclasses, everything else to a plain `SeennError`
carrying the server-supplied code and the HTTP status.  The 429 branch
reads the three rate-limit headers with defaults 60, 0 and 0. -/
def handleErrorResponse (r : HttpResponse) : SeennErr :=
  if r.status = 400 then SeennErr.validation (respMessage r) (respDetails r)
  else if r.status = 401 then SeennErr.authentication (respMessage r)
  else if r.status = 404 then SeennErr.notFound "Resource" (respDetailsId r)
  else if r.status = 429 then
    SeennErr.rateLimit (r.retryAfterHeader.getD 60) (r.limitHeader.getD 0)
      (r.remainingHeader.getD 0)
  else SeennErr.base (respMessage r) (respCode r) r.status (respDetails r)

/-! ## One attempt of the request closure (src/http.ts, request)

Each attempt either receives an HTTP response, or the abort controller
fires on the client-side deadline (an `AbortError`), or `fetch` fails at
the transport level.  The closure maps these to a value or a thrown
`SeennErr` exactly as the catch block does: `AbortError` becomes
`SeennError("Request timeout", "TIMEOUT", 408)` and a transport error
becomes `SeennError(message, "NETWORK_ERROR", 0)`. -/

inductive AttemptStim (α : Type) where
  | response (r : HttpResponse) (val : α)
  | abortError
  | networkError (msg : String)

/-- The outcome of running the per-attempt closure on one stimulus:
`response.ok` (a 2xx status) yields the decoded value, a non-2xx response
is classified by `handleErrorResponse`, and the two failure stimuli are
wrapped as in the catch block. -/
def attemptResult {α : Type} (s : AttemptStim α) : Except SeennErr α :=
  match s with
  | .response r v =>
      if 200 ≤ r.status ∧ r.status < 300 then Except.ok v
      else Except.error (handleErrorResponse r)
  | .abortError => Except.error (SeennErr.base "Request timeout" "TIMEOUT" 408 none)
  | .networkError m => Except.error (SeennErr.base m "NETWORK_ERROR" 0 none)

/-! ## The retry loop (src/http.ts, executeWithRetry) -/

/-- The abort test of the retry loop: a classified failure with a 4xx
status that is not a `RateLimitError` is rethrown immediately. -/
def shouldAbort (e : SeennErr) : Bool :=
  decide (400 ≤ e.statusCode) && decide (e.statusCode < 500) && !e.isRateLimit

/-- Observable events of one run of the retry loop: the n-th attempt with
its outcome, and the backoff sleep taken after attempt n. -/
inductive Ev (α : Type) where
  | attempt (n : Nat) (out : Except SeennErr α)
  | sleep (n : Nat)

def isAttempt {α : Type} : Ev α → Bool
  | .attempt _ _ => true
  | .sleep _ => false

def countAttempts {α : Type} (l : List (Ev α)) : Nat :=
  (l.filter isAttempt).length

/-- Whether the final event of a trace is an attempt (so no sleep is ever
the last thing the loop does). -/
def lastEventIsAttempt {α : Type} : List (Ev α) → Bool
  | [] => true
  | [e] => isAttempt e
  | _ :: e :: rest => lastEventIsAttempt (e :: rest)

/-- The body of `executeWithRetry`, with `fuel` the number of loop
iterations still permitted (`maxRetries - attempt`) and `last` the
`lastError` variable.  Mirrors the source: a successful attempt returns
its value; a 4xx non-rate-limit failure is rethrown at once; otherwise,
if another iteration remains, the loop sleeps and retries, and if not it
falls out of the loop and throws the last error.  A run that was allowed
zero iterations throws the undefined `lastError` (`Except.error none`). -/
def goRetry {α : Type} (outcomes : Nat → Except SeennErr α) :
    Nat → Nat → Option SeennErr → List (Ev α) × Except (Option SeennErr) α
  | 0, _, last => ([], Except.error last)
  | fuel + 1, attempt, _ =>
    match outcomes attempt with
    | Except.ok v => ([Ev.attempt attempt (Except.ok v)], Except.ok v)
    | Except.error e =>
      if shouldAbort e then
        ([Ev.attempt attempt (Except.error e)], Except.error (some e))
      else if fuel = 0 then
        ([Ev.attempt attempt (Except.error e)], Except.error (some e))
      else
        let rest := goRetry outcomes fuel (attempt + 1) (some e)
        (Ev.attempt attempt (Except.error e) :: Ev.sleep attempt :: rest.1,
         rest.2)

/-- `executeWithRetry(fn, idempotent)`: the attempt ceiling is the
configured `maxRetries` for idempotent calls and 1 otherwise. -/
def executeWithRetry {α : Type} (outcomes : Nat → Except SeennErr α)
    (idempotent : Bool) (maxRetries : Nat) :
    List (Ev α) × Except (Option SeennErr) α :=
  goRetry outcomes (if idempotent then maxRetries else 1) 0 none

/-! ## Backoff arithmetic (src/http.ts, executeWithRetry lines 156-159)

`Math.random()` is modelled by a rational `rand` in the unit interval;
the literal `0.2` is `1/5`. -/

/-- Delay computed before retrying after attempt `attempt` (0-based):
`min(exponentialDelay + jitter, 30000)` with
`exponentialDelay = 1000 * 2 ^ attempt` and
`jitter = rand * 0.2 * exponentialDelay`. -/
def backoffDelay (attempt : Nat) (rand : ℚ) : ℚ :=
  let exponentialDelay : ℚ := 1000 * 2 ^ attempt
  let jitter : ℚ := rand * (1 / 5) * exponentialDelay
  min (exponentialDelay + jitter) 30000

/-! ## Configuration resolution (src/client.ts, SeennClient constructor) -/

/-- The caller-supplied `SeennConfig`: every field but the key is optional
(`none` models an omitted field). -/
structure SeennConfigIn where
  apiKey : String
  baseUrl : Option String
  timeout : Option Nat
  maxRetries : Option Nat
  debug : Option Bool
deriving DecidableEq

/-- The fully-resolved configuration the constructor stores. -/
structure ResolvedConfig where
  apiKey : String
  baseUrl : String
  timeout : Nat
  maxRetries : Nat
  debug : Bool
deriving DecidableEq

/-- JavaScript falsy coalescing `n || d` on a possibly-absent number:
both an omitted field and an explicit 0 yield the default. -/
def jsOrNat (v : Option Nat) (d : Nat) : Nat :=
  match v with
  | none => d
  | some n => if n = 0 then d else n

/-- JavaScript falsy coalescing on a possibly-absent string: both an
omitted field and the empty string yield the default. -/
def jsOrStringOpt (v : Option String) (d : String) : String :=
  jsOrString (v.getD "") d

/-- The constructor's defaulting block:
`baseUrl: config.baseUrl || "https://api.seenn.io"`,
`timeout: config.timeout || 30000`, `maxRetries: config.maxRetries || 3`,
`debug: config.debug || false`. -/
def resolveConfig (c : SeennConfigIn) : ResolvedConfig :=
  { apiKey := c.apiKey
    baseUrl := jsOrStringOpt c.baseUrl "https://api.seenn.io"
    timeout := jsOrNat c.timeout 30000
    maxRetries := jsOrNat c.maxRetries 3
    debug := c.debug.getD false }

/-! ## Job data model (src/types.ts and src/job.ts) -/

inductive JobStatus where
  | pending | running | completed | failed
deriving DecidableEq

inductive ChildProgressMode where
  | average | weighted | sequential
deriving DecidableEq

structure QueueInfo where
  position : Nat
  total : Option Nat
  queueName : Option String
deriving DecidableEq

structure StageInfo where
  name : String
  current : Nat
  total : Nat
  description : Option String
deriving DecidableEq

structure JobResult where
  type : Option String
  url : Option String
  data : Option (List (String × String))
deriving DecidableEq

structure JobError where
  code : String
  message : String
  details : Option (List (String × String))
deriving DecidableEq

structure ParentInfo where
  parentJobId : String
  childIndex : Nat
deriving DecidableEq

structure ChildrenStats where
  total : Nat
  completed : Nat
  failed : Nat
  running : Nat
  pending : Nat
deriving DecidableEq

/-- A parsed `Date` value; `new Date(s)` is modelled as an opaque wrapper
of the ISO string it was parsed from. -/
structure JSDate where
  raw : String
deriving DecidableEq

def newDate (s : String) : JSDate := ⟨s⟩

/-- The wire-format `JobResponse` of `src/types.ts` (timestamps are ISO
strings). -/
structure JobResponse where
  id : String
  appId : String
  userId : String
  jobType : String
  title : String
  workflowId : Option String
  status : JobStatus
  progress : ℚ
  message : Option String
  queue : Option QueueInfo
  stage : Option StageInfo
  result : Option JobResult
  error : Option JobError
  metadata : Option (List (String × String))
  estimatedCompletionAt : Option String
  etaConfidence : Option ℚ
  etaBasedOn : Option ℚ
  createdAt : String
  updatedAt : String
  startedAt : Option String
  completedAt : Option String
  parent : Option ParentInfo
  children : Option ChildrenStats
  childProgressMode : Option ChildProgressMode
deriving DecidableEq

/-- The local state of a `Job` handle (`src/job.ts`): the same fields with
timestamps parsed into `Date` values. -/
structure Job where
  id : String
  appId : String
  userId : String
  jobType : String
  title : String
  workflowId : Option String
  status : JobStatus
  progress : ℚ
  message : Option String
  queue : Option QueueInfo
  stage : Option StageInfo
  result : Option JobResult
  error : Option JobError
  metadata : Option (List (String × String))
  estimatedCompletionAt : Option String
  etaConfidence : Option ℚ
  etaBasedOn : Option ℚ
  createdAt : JSDate
  updatedAt : JSDate
  startedAt : Option JSDate
  completedAt : Option JSDate
  parent : Option ParentInfo
  children : Option ChildrenStats
  childProgressMode : Option ChildProgressMode
deriving DecidableEq

/-- The `Job` constructor: copies every response field, parsing the
timestamps. -/
def Job.ofResponse (r : JobResponse) : Job :=
  { id := r.id
    appId := r.appId
    userId := r.userId
    jobType := r.jobType
    title := r.title
    workflowId := r.workflowId
    status := r.status
    progress := r.progress
    message := r.message
    queue := r.queue
    stage := r.stage
    result := r.result
    error := r.error
    metadata := r.metadata
    estimatedCompletionAt := r.estimatedCompletionAt
    etaConfidence := r.etaConfidence
    etaBasedOn := r.etaBasedOn
    createdAt := newDate r.createdAt
    updatedAt := newDate r.updatedAt
    startedAt := r.startedAt.map newDate
    completedAt := r.completedAt.map newDate
    parent := r.parent
    children := r.children
    childProgressMode := r.childProgressMode }

/-- `updateFromResponse`: overwrites every mutable field from the response
and leaves the `readonly` fields (`id`, `appId`, `userId`, `jobType`,
`title`, `workflowId`, `createdAt`) untouched. -/
def Job.updateFromResponse (j : Job) (r : JobResponse) : Job :=
  { j with
    status := r.status
    progress := r.progress
    message := r.message
    queue := r.queue
    stage := r.stage
    result := r.result
    error := r.error
    metadata := r.metadata
    estimatedCompletionAt := r.estimatedCompletionAt
    etaConfidence := r.etaConfidence
    etaBasedOn := r.etaBasedOn
    updatedAt := newDate r.updatedAt
    startedAt := r.startedAt.map newDate
    completedAt := r.completedAt.map newDate
    parent := r.parent
    children := r.children
    childProgressMode := r.childProgressMode }

inductive Method where
  | GET | POST | PUT | DELETE
deriving DecidableEq

/-- The URL built by `HttpClient.request`: the configured base URL with
the path appended. -/
def requestUrl (baseUrl path : String) : String := baseUrl ++ path

/-- The request issued by `Job.setProgress`. -/
def Job.setProgressRequest (j : Job) : Method × String :=
  (Method.POST, "/jobs/" ++ j.id ++ "/progress")

/-- The request issued by `Job.complete`. -/
def Job.completeRequest (j : Job) : Method × String :=
  (Method.POST, "/jobs/" ++ j.id ++ "/complete")

/-- The request issued by `Job.fail`. -/
def Job.failRequest (j : Job) : Method × String :=
  (Method.POST, "/jobs/" ++ j.id ++ "/fail")

/-- The request issued by `Job.refresh`. -/
def Job.refreshRequest (j : Job) : Method × String :=
  (Method.GET, "/jobs/" ++ j.id)

/-- Success continuation of `setProgress`: the method calls
`updateFromResponse` and returns `this`, so in state-passing form the
returned handle is the updated state of the same job. -/
def Job.setProgressApply (j : Job) (r : JobResponse) : Job :=
  j.updateFromResponse r

/-- Success continuation of `complete` (same update contract). -/
def Job.completeApply (j : Job) (r : JobResponse) : Job :=
  j.updateFromResponse r

/-- Success continuation of `fail` (same update contract). -/
def Job.failApply (j : Job) (r : JobResponse) : Job :=
  j.updateFromResponse r

/-- Success continuation of `refresh` (same update contract). -/
def Job.refreshApply (j : Job) (r : JobResponse) : Job :=
  j.updateFromResponse r

/-! ## ETA statistics lookup (src/client.ts, eta.getStats) -/

/-- The `EtaStats` record of `src/types.ts`. -/
structure EtaStats where
  jobType : String
  version : String
  count : ℚ
  avgDuration : ℚ
  p50Duration : ℚ
  p95Duration : ℚ
  minDuration : ℚ
  maxDuration : ℚ
  confidence : ℚ
  lastUpdated : String
deriving DecidableEq

/-- The catch block of `eta.getStats` applied to the outcome of the
underlying GET: on success the stats are returned; on failure the code
tests `error && typeof error === "object" && "status" in error &&
error.status === 404` and returns `null` when it holds, rethrowing
otherwise. -/
def getStatsFromOutcome {α : Type} (o : Except SeennErr α) :
    Except SeennErr (Option α) :=
  match o with
  | Except.ok v => Except.ok (some v)
  | Except.error e =>
      if "status" ∈ e.ownPropNames ∧ e.getNumProp "status" = some 404 then
        Except.ok none
      else Except.error e

/-! ## Batch creation (src/client.ts, createBatch) -/

/-- The body posted by `jobs.createParent` to `/v1/jobs`. -/
structure CreateParentBody where
  jobType : String
  userId : String
  title : String
  totalChildren : Nat
  childProgressMode : Option ChildProgressMode
  metadata : Option (List (String × String))
  ttlSeconds : Option Nat
deriving DecidableEq

/-- The body posted by `jobs.createChild` to `/v1/jobs`. -/
structure CreateChildBody where
  jobType : String
  userId : String
  title : String
  parentJobId : String
  childIndex : Nat
  metadata : Option (List (String × String))
  ttlSeconds : Option Nat
deriving DecidableEq

/-- The `CreateBatchParams` of `src/types.ts`. -/
structure CreateBatchParams where
  jobType : String
  userId : String
  parentTitle : String
  childTitles : List String
  childProgressMode : Option ChildProgressMode
  metadata : Option (List (String × String))
  ttlSeconds : Option Nat
deriving DecidableEq

/-- The parent-creation body built by `createBatch` (child count is the
number of child titles). -/
def batchParentBody (p : CreateBatchParams) : CreateParentBody :=
  { jobType := p.jobType
    userId := p.userId
    title := p.parentTitle
    totalChildren := p.childTitles.length
    childProgressMode := p.childProgressMode
    metadata := p.metadata
    ttlSeconds := p.ttlSeconds }

/-- The child-creation body built by `createBatch` for index `i` and
title `t`, tagged with the parent id returned by the parent creation
(`createBatch` passes no metadata to children). -/
def batchChildBody (p : CreateBatchParams) (parentId : String) (i : Nat)
    (t : String) : CreateChildBody :=
  { jobType := p.jobType
    userId := p.userId
    title := t
    parentJobId := parentId
    childIndex := i
    metadata := none
    ttlSeconds := p.ttlSeconds }

/-- JavaScript's `array.map((a, i) => f i a)` starting from index `n`. -/
def mapWithIndex {α β : Type} (f : Nat → α → β) : Nat → List α → List β
  | _, [] => []
  | i, a :: as => f i a :: mapWithIndex f (i + 1) as

/-- JavaScript's `array.map((a, i) => f i a)`. -/
def jsMapWithIndex {α β : Type} (f : Nat → α → β) (l : List α) : List β :=
  mapWithIndex f 0 l

/-- The causal structure of one `createBatch` run.  The three fields are
the three awaited phases of the source, in order: the parent-creation
request settles first (yielding `parentResp`, whose id the children use);
the child-creation requests are then issued concurrently; the single
parent refresh is issued only after `Promise.all` over the children
settles. -/
structure BatchTrace where
  parentCreate : CreateParentBody
  childCreates : List CreateChildBody
  parentRefreshPath : String
deriving DecidableEq

/-- The requests `createBatch` issues, given the response to the parent
creation.  The refresh goes through `Job.refresh` on the handle built
from `parentResp`. -/
def createBatchTrace (p : CreateBatchParams) (parentResp : JobResponse) :
    BatchTrace :=
  { parentCreate := batchParentBody p
    childCreates :=
      jsMapWithIndex (fun i t => batchChildBody p parentResp.id i t)
        p.childTitles
    parentRefreshPath := (Job.ofResponse parentResp).refreshRequest.2 }

/-! ## Concrete values used by the closed theorems -/

/-- A minimal server response for a freshly started job with id `j1`. -/
def respJ1 : JobResponse :=
  { id := "j1"
    appId := "app_1"
    userId := "u1"
    jobType := "video-generation"
    title := "t"
    workflowId := none
    status := JobStatus.pending
    progress := 0
    message := none
    queue := none
    stage := none
    result := none
    error := none
    metadata := none
    estimatedCompletionAt := none
    etaConfidence := none
    etaBasedOn := none
    createdAt := "2025-01-01T00:00:00Z"
    updatedAt := "2025-01-01T00:00:00Z"
    startedAt := none
    completedAt := none
    parent := none
    children := none
    childProgressMode := none }

/-- The handle built from `respJ1`. -/
def jobJ1 : Job := Job.ofResponse respJ1

/-- A 503 response with no decodable error body and no rate headers. -/
def r503 : HttpResponse :=
  { status := 503
    statusText := "Service Unavailable"
    body := none
    retryAfterHeader := none
    limitHeader := none
    remainingHeader := none }

/-- Batch parameters with three child titles. -/
def pBatch3 : CreateBatchParams :=
  { jobType := "video-generation"
    userId := "u1"
    parentTitle := "batch"
    childTitles := ["a", "b", "c"]
    childProgressMode := none
    metadata := none
    ttlSeconds := none }

/-- The server response to the parent creation of the batch. -/
def respParent : JobResponse := { respJ1 with id := "parent1" }

/-- Default element for indexing into child-creation request lists. -/
def dChild : CreateChildBody :=
  { jobType := ""
    userId := ""
    title := ""
    parentJobId := ""
    childIndex := 0
    metadata := none
    ttlSeconds := none }

/-- The error thrown by the executor for a 404 on the ETA endpoint (a
`NotFoundError`, whose message embeds the resource and id). -/
def etaNotFoundErr : SeennErr := SeennErr.notFound "Resource" "video-generation"

/-! ## Helper lemmas about the retry loop -/

theorem countAttempts_nil {α : Type} : countAttempts ([] : List (Ev α)) = 0 := rfl

theorem countAttempts_attempt_cons {α : Type} (n : Nat) (o : Except SeennErr α)
    (l : List (Ev α)) :
    countAttempts (Ev.attempt n o :: l) = countAttempts l + 1 := by
  simp [countAttempts, List.filter_cons, isAttempt]

theorem countAttempts_sleep_cons {α : Type} (n : Nat) (l : List (Ev α)) :
    countAttempts (Ev.sleep n :: l) = countAttempts l := by
  simp [countAttempts, List.filter_cons, isAttempt]

theorem countAttempts_goRetry_le {α : Type} (o : Nat → Except SeennErr α) :
    ∀ (fuel a : Nat) (last : Option SeennErr),
      countAttempts (goRetry o fuel a last).1 ≤ fuel := by
  intro fuel
  induction fuel with
  | zero => intro a last; simp [goRetry, countAttempts_nil]
  | succ f ih =>
    intro a last
    simp only [goRetry]
    cases h : o a with
    | ok v => simp [countAttempts_attempt_cons, countAttempts_nil]
    | error e =>
      by_cases hab : shouldAbort e
      · simp [hab, countAttempts_attempt_cons, countAttempts_nil]
      · by_cases hf : f = 0
        · simp [hab, hf, countAttempts_attempt_cons, countAttempts_nil]
        · have hrec := ih (a + 1) (some e)
          simp only [hab, hf, Bool.false_eq_true, if_false,
            countAttempts_attempt_cons, countAttempts_sleep_cons]
          omega

theorem countAttempts_goRetry_one {α : Type} (o : Nat → Except SeennErr α)
    (a : Nat) (last : Option SeennErr) :
    countAttempts (goRetry o 1 a last).1 = 1 := by
  show countAttempts (goRetry o (0 + 1) a last).1 = 1
  simp only [goRetry]
  cases h : o a with
  | ok v => simp [countAttempts_attempt_cons, countAttempts_nil]
  | error e =>
    by_cases hab : shouldAbort e
    · simp [hab, countAttempts_attempt_cons, countAttempts_nil]
    · simp [hab, countAttempts_attempt_cons, countAttempts_nil]

theorem goRetry_trace_ne_nil {α : Type} (o : Nat → Except SeennErr α)
    (fuel a : Nat) (last : Option SeennErr) (hf : 1 ≤ fuel) :
    (goRetry o fuel a last).1 ≠ [] := by
  cases fuel with
  | zero => omega
  | succ f =>
    simp only [goRetry]
    cases h : o a with
    | ok v => simp
    | error e =>
      by_cases hab : shouldAbort e
      · simp [hab]
      · by_cases hfz : f = 0
        · simp [hab, hfz]
        · simp [hab, hfz]

theorem lastEventIsAttempt_goRetry {α : Type} (o : Nat → Except SeennErr α) :
    ∀ (fuel a : Nat) (last : Option SeennErr),
      lastEventIsAttempt (goRetry o fuel a last).1 = true := by
  intro fuel
  induction fuel with
  | zero => intro a last; simp [goRetry, lastEventIsAttempt]
  | succ f ih =>
    intro a last
    simp only [goRetry]
    cases h : o a with
    | ok v => simp [lastEventIsAttempt, isAttempt]
    | error e =>
      by_cases hab : shouldAbort e
      · simp [hab, lastEventIsAttempt, isAttempt]
      · by_cases hfz : f = 0
        · simp [hab, hfz, lastEventIsAttempt, isAttempt]
        · have hne := goRetry_trace_ne_nil o f (a + 1) (some e) (by omega)
          have hl := ih (a + 1) (some e)
          obtain ⟨c, cs, hc⟩ := List.exists_cons_of_ne_nil hne
          simp only [hab, hfz, Bool.false_eq_true, if_false]
          rw [hc] at hl ⊢
          simpa [lastEventIsAttempt] using hl

theorem goRetry_const_abort {α : Type} (e : SeennErr) (hab : shouldAbort e = true)
    (fuel a : Nat) (last : Option SeennErr) :
    goRetry (α := α) (fun _ => Except.error e) (fuel + 1) a last =
      ([Ev.attempt a (Except.error e)], Except.error (some e)) := by
  simp [goRetry, hab]

theorem goRetry_const_retry {α : Type} (e : SeennErr) (hab : shouldAbort e = false) :
    ∀ (fuel : Nat), 1 ≤ fuel → ∀ (a : Nat) (last : Option SeennErr),
      countAttempts (goRetry (α := α) (fun _ => Except.error e) fuel a last).1 = fuel
      ∧ (goRetry (α := α) (fun _ => Except.error e) fuel a last).2
          = Except.error (some e) := by
  intro fuel
  induction fuel with
  | zero => intro hf; omega
  | succ f ih =>
    intro _ a last
    by_cases hfz : f = 0
    · subst hfz
      constructor
      · simp [goRetry, hab, countAttempts_attempt_cons, countAttempts_nil]
      · simp [goRetry, hab]
    · have hrec := ih (by omega) (a + 1) (some e)
      constructor
      · simp only [goRetry, hab, hfz, Bool.false_eq_true, if_false,
          countAttempts_attempt_cons, countAttempts_sleep_cons]
        omega
      · simp only [goRetry, hab, hfz, Bool.false_eq_true, if_false]
        exact hrec.2

/-! ## Helper lemmas about classification and indexed mapping -/

theorem statusCode_handleErrorResponse (r : HttpResponse) :
    (handleErrorResponse r).statusCode = r.status := by
  unfold handleErrorResponse
  split_ifs <;> simp_all [SeennErr.statusCode]

theorem isRateLimit_handleErrorResponse (r : HttpResponse) :
    (handleErrorResponse r).isRateLimit = decide (r.status = 429) := by
  unfold handleErrorResponse
  split_ifs <;> simp_all [SeennErr.isRateLimit]

theorem shouldAbort_handleErrorResponse (r : HttpResponse) :
    shouldAbort (handleErrorResponse r) =
      (decide (400 ≤ r.status) && decide (r.status < 500)
        && !(decide (r.status = 429))) := by
  simp [shouldAbort, statusCode_handleErrorResponse,
    isRateLimit_handleErrorResponse]

theorem mapWithIndex_length {α β : Type} (f : Nat → α → β) :
    ∀ (n : Nat) (l : List α), (mapWithIndex f n l).length = l.length := by
  intro n l
  induction l generalizing n with
  | nil => simp [mapWithIndex]
  | cons a as ih => simp [mapWithIndex, ih]

theorem mapWithIndex_getD {α β : Type} (f : Nat → α → β) (d : β) (e : α) :
    ∀ (l : List α) (n i : Nat), i < l.length →
      (mapWithIndex f n l).getD i d = f (n + i) (l.getD i e) := by
  intro l
  induction l with
  | nil => intro n i hi; simp at hi
  | cons a as ih =>
    intro n i hi
    cases i with
    | zero => simp [mapWithIndex]
    | succ i' =>
      have hstep : n + (i' + 1) = (n + 1) + i' := by omega
      simp only [mapWithIndex, List.getD_cons_succ, hstep]
      exact ih (n + 1) i' (by simpa using hi)

/-! ## Claim theorems -/

/-- C1: the claim says a `NotFound` (HTTP 404) failure of the underlying
GET makes `eta.getStats` return `null`.  The code instead rethrows it: the
recovery branch probes the `status` property, but the error classes only
ever define `statusCode`, so the test never matches and the 404 error
propagates.  This theorem evaluates the model at the failing input: the
outcome is the rethrown `NotFoundError` (whose `statusCode` is 404 and
whose property set indeed lacks `status` while containing `statusCode`),
not the explicit empty result. -/
theorem getStats_rethrows_notFound :
    getStatsFromOutcome (α := EtaStats) (Except.error etaNotFoundErr)
        = Except.error etaNotFoundErr
    ∧ getStatsFromOutcome (α := EtaStats) (Except.error etaNotFoundErr)
        ≠ Except.ok none
    ∧ etaNotFoundErr.statusCode = 404
    ∧ "status" ∉ etaNotFoundErr.ownPropNames
    ∧ "statusCode" ∈ etaNotFoundErr.ownPropNames := by
  have h1 : getStatsFromOutcome (α := EtaStats) (Except.error etaNotFoundErr)
      = Except.error etaNotFoundErr := rfl
  refine ⟨h1, ?_, rfl, by decide, by decide⟩
  rw [h1]
  intro h
  exact Except.noConfusion h

/-- C2: the claim says a client-side deadline expiry on a non-final
attempt of an idempotent call is converted into a `Timeout` classified
failure and then retried like a transport `NetworkError`.  The conversion
half is true, but the resulting failure carries `statusCode` 408, so the
retry loop's 4xx test rethrows it at once: an idempotent call with three
permitted attempts performs exactly one attempt on timeout, while the
same call performs all three on a `NetworkError`. -/
theorem timeout_converted_but_not_retried :
    attemptResult (α := Nat) AttemptStim.abortError
        = Except.error (SeennErr.base "Request timeout" "TIMEOUT" 408 none)
    ∧ countAttempts (executeWithRetry
        (fun _ => attemptResult (α := Nat) AttemptStim.abortError) true 3).1 = 1
    ∧ (executeWithRetry
        (fun _ => attemptResult (α := Nat) AttemptStim.abortError) true 3).2
        = Except.error (some (SeennErr.base "Request timeout" "TIMEOUT" 408 none))
    ∧ countAttempts (executeWithRetry
        (fun _ => attemptResult (α := Nat) (AttemptStim.networkError "fetch failed"))
        true 3).1 = 3 :=
  ⟨rfl, rfl, rfl, rfl⟩

/-- C3: the claim says the `Job` handle methods hit the `/v1/jobs/...`
paths of the external-interface table.  The code builds the paths without
the `/v1` prefix: for the handle with id `j1`, `setProgress` posts to
`/jobs/j1/progress`, `complete` to `/jobs/j1/complete`, `fail` to
`/jobs/j1/fail`, and `refresh` GETs `/jobs/j1`. -/
theorem job_request_paths_lack_v1 :
    jobJ1.id = "j1"
    ∧ jobJ1.setProgressRequest = (Method.POST, "/jobs/j1/progress")
    ∧ jobJ1.completeRequest = (Method.POST, "/jobs/j1/complete")
    ∧ jobJ1.failRequest = (Method.POST, "/jobs/j1/fail")
    ∧ jobJ1.refreshRequest = (Method.GET, "/jobs/j1")
    ∧ jobJ1.setProgressRequest.2 ≠ "/v1/jobs/j1/progress"
    ∧ jobJ1.refreshRequest.2 ≠ "/v1/jobs/j1" := by
  refine ⟨rfl, ?_, ?_, ?_, ?_, by decide, by decide⟩ <;> decide

/-- C4: the executor attempts an idempotent call at most the configured
maximum number of times, and a non-idempotent call exactly once,
whatever the configured maximum is. -/
theorem executor_attempt_ceiling {α : Type} (o : Nat → Except SeennErr α)
    (m : Nat) :
    countAttempts (executeWithRetry o true m).1 ≤ m
    ∧ countAttempts (executeWithRetry o false m).1 = 1 := by
  constructor
  · simpa [executeWithRetry] using countAttempts_goRetry_le o m 0 none
  · simpa [executeWithRetry] using countAttempts_goRetry_one o 0 none

/-- C5: the delay computed before retrying after attempt `n` equals
`min(1000 * 2 ^ n * (1 + jitter), 30000)` with `jitter = rand * 0.2` for a
uniform `rand` in the unit interval, so it lies between `1000 * 2 ^ n` and
`1200 * 2 ^ n` (both capped at 30000); and the retry loop never ends a run
with a sleep, so no delay is awaited after the final attempt. -/
theorem backoff_formula_and_bounds (n : Nat) (rand : ℚ)
    (h0 : 0 ≤ rand) (h1 : rand ≤ 1) :
    backoffDelay n rand = min (1000 * 2 ^ n * (1 + rand * (1 / 5))) 30000
    ∧ min (1000 * 2 ^ n : ℚ) 30000 ≤ backoffDelay n rand
    ∧ backoffDelay n rand ≤ min (1200 * 2 ^ n : ℚ) 30000
    ∧ ∀ (α : Type) (o : Nat → Except SeennErr α) (idem : Bool) (m : Nat),
        lastEventIsAttempt (executeWithRetry o idem m).1 = true := by
  have hpos : (0 : ℚ) < 2 ^ n := by positivity
  refine ⟨?_, ?_, ?_, ?_⟩
  · simp only [backoffDelay]
    congr 1
    ring
  · simp only [backoffDelay]
    refine min_le_min ?_ le_rfl
    nlinarith
  · simp only [backoffDelay]
    refine min_le_min ?_ le_rfl
    nlinarith
  · intro α o idem m
    simpa [executeWithRetry] using
      lastEventIsAttempt_goRetry o (if idem then m else 1) 0 none

/-- C5 witness: the formula at attempt 1 with `rand = 1/10`. -/
theorem backoff_formula_and_bounds_witness :
    (0 : ℚ) ≤ 1 / 10 ∧ (1 / 10 : ℚ) ≤ 1
    ∧ backoffDelay 1 (1 / 10)
        = min (1000 * 2 ^ 1 * (1 + (1 / 10) * (1 / 5)) : ℚ) 30000 :=
  ⟨by norm_num, by norm_num,
   (backoff_formula_and_bounds 1 (1 / 10) (by norm_num) (by norm_num)).1⟩

/-- C6: for an idempotent call that keeps receiving the same non-2xx
response, a 4xx status other than 429 yields exactly one attempt and the
classified failure; any 5xx status or 429 yields the full configured
number of attempts and then the last classified failure. -/
theorem http_retry_by_status (r : HttpResponse) (m : Nat) (hm : 1 ≤ m)
    (hne : ¬(200 ≤ r.status ∧ r.status < 300)) :
    ((400 ≤ r.status ∧ r.status < 500 ∧ r.status ≠ 429) →
      countAttempts (executeWithRetry
          (fun _ => attemptResult (AttemptStim.response r (0 : Nat))) true m).1 = 1
      ∧ (executeWithRetry
          (fun _ => attemptResult (AttemptStim.response r (0 : Nat))) true m).2
          = Except.error (some (handleErrorResponse r)))
    ∧ ((500 ≤ r.status ∨ r.status = 429) →
      countAttempts (executeWithRetry
          (fun _ => attemptResult (AttemptStim.response r (0 : Nat))) true m).1 = m
      ∧ (executeWithRetry
          (fun _ => attemptResult (AttemptStim.response r (0 : Nat))) true m).2
          = Except.error (some (handleErrorResponse r))) := by
  have hatt : (fun _ : Nat => attemptResult (AttemptStim.response r (0 : Nat)))
      = fun _ => Except.error (handleErrorResponse r) := by
    funext k
    simp [attemptResult, hne]
  constructor
  · intro h4
    have hab : shouldAbort (handleErrorResponse r) = true := by
      rw [shouldAbort_handleErrorResponse]
      simp [h4.1, h4.2.1, h4.2.2]
    obtain ⟨k, rfl⟩ : ∃ k, m = k + 1 := ⟨m - 1, by omega⟩
    rw [executeWithRetry, hatt, if_pos rfl,
      goRetry_const_abort (handleErrorResponse r) hab k 0 none]
    exact ⟨rfl, rfl⟩
  · intro h5
    have hab : shouldAbort (handleErrorResponse r) = false := by
      rw [shouldAbort_handleErrorResponse]
      rcases h5 with h5 | h5
      · simp [Nat.not_lt.mpr h5]
      · simp [h5]
    have := goRetry_const_retry (α := Nat) (handleErrorResponse r) hab m hm 0 none
    rw [executeWithRetry, hatt, if_pos rfl]
    exact this

/-- C6 witness: a 503 response under three permitted attempts is retried
to exhaustion. -/
theorem http_retry_by_status_witness :
    countAttempts (executeWithRetry
        (fun _ => attemptResult (AttemptStim.response r503 (0 : Nat))) true 3).1 = 3 :=
  ((http_retry_by_status r503 3 (by norm_num) (by decide)).2 (Or.inl (by decide))).1

/-- C7: `handleErrorResponse` classifies by status — 400 to a
`ValidationError`, 401 to an `AuthenticationError`, 404 to a
`NotFoundError`, 429 to a `RateLimitError` reading the three rate-limit
headers with defaults 60/0/0 for absent headers, and any other status to a
generic `SeennError` carrying the server-supplied code and the HTTP
status; when no structured error body was decoded, the message falls back
to the HTTP status text and the code to `UNKNOWN`. -/
theorem classify_error_response (r : HttpResponse)
    (hne : ¬(200 ≤ r.status ∧ r.status < 300)) :
    (r.status = 400 →
      handleErrorResponse r = SeennErr.validation (respMessage r) (respDetails r))
    ∧ (r.status = 401 →
      handleErrorResponse r = SeennErr.authentication (respMessage r))
    ∧ (r.status = 404 →
      handleErrorResponse r = SeennErr.notFound "Resource" (respDetailsId r))
    ∧ (r.status = 429 →
      handleErrorResponse r = SeennErr.rateLimit (r.retryAfterHeader.getD 60)
        (r.limitHeader.getD 0) (r.remainingHeader.getD 0))
    ∧ (r.status ≠ 400 → r.status ≠ 401 → r.status ≠ 404 → r.status ≠ 429 →
      handleErrorResponse r
        = SeennErr.base (respMessage r) (respCode r) r.status (respDetails r))
    ∧ (r.body = none → respMessage r = r.statusText ∧ respCode r = "UNKNOWN") := by
  refine ⟨?_, ?_, ?_, ?_, ?_, ?_⟩
  · intro h; simp [handleErrorResponse, h]
  · intro h; simp [handleErrorResponse, h]
  · intro h; simp [handleErrorResponse, h]
  · intro h; simp [handleErrorResponse, h]
  · intro h1 h2 h3 h4; simp [handleErrorResponse, h1, h2, h3, h4]
  · intro hb; simp [respMessage, respCode, hb, jsOrString]

/-- C7 witness: the bodyless 503 response maps to a generic failure with
the status text as message and `UNKNOWN` as code. -/
theorem classify_error_response_witness :
    ¬(200 ≤ r503.status ∧ r503.status < 300)
    ∧ handleErrorResponse r503
        = SeennErr.base "Service Unavailable" "UNKNOWN" 503 none := by
  refine ⟨by decide, ?_⟩
  have h := (classify_error_response r503 (by decide)).2.2.2.2.1
    (by decide) (by decide) (by decide) (by decide)
  simpa [respMessage, respCode, respDetails, r503, jsOrString] using h

/-- C8: `updateFromResponse` — shared by the success paths of
`setProgress`, `complete`, `fail` and `refresh` — leaves the identity
fields (`id`, `appId`, `userId`, `jobType`, `title`, `createdAt`, and also
`workflowId`) untouched and overwrites every mutable field from the
response; in state-passing form each method returns the updated state of
the very handle it was called on (the identity fields come from the
handle, not from the response). -/
theorem job_update_frame (j : Job) (r : JobResponse) :
    ((j.updateFromResponse r).id = j.id
      ∧ (j.updateFromResponse r).appId = j.appId
      ∧ (j.updateFromResponse r).userId = j.userId
      ∧ (j.updateFromResponse r).jobType = j.jobType
      ∧ (j.updateFromResponse r).title = j.title
      ∧ (j.updateFromResponse r).workflowId = j.workflowId
      ∧ (j.updateFromResponse r).createdAt = j.createdAt)
    ∧ ((j.updateFromResponse r).status = r.status
      ∧ (j.updateFromResponse r).progress = r.progress
      ∧ (j.updateFromResponse r).message = r.message
      ∧ (j.updateFromResponse r).queue = r.queue
      ∧ (j.updateFromResponse r).stage = r.stage
      ∧ (j.updateFromResponse r).result = r.result
      ∧ (j.updateFromResponse r).error = r.error
      ∧ (j.updateFromResponse r).metadata = r.metadata
      ∧ (j.updateFromResponse r).estimatedCompletionAt = r.estimatedCompletionAt
      ∧ (j.updateFromResponse r).etaConfidence = r.etaConfidence
      ∧ (j.updateFromResponse r).etaBasedOn = r.etaBasedOn
      ∧ (j.updateFromResponse r).updatedAt = newDate r.updatedAt
      ∧ (j.updateFromResponse r).startedAt = r.startedAt.map newDate
      ∧ (j.updateFromResponse r).completedAt = r.completedAt.map newDate
      ∧ (j.updateFromResponse r).parent = r.parent
      ∧ (j.updateFromResponse r).children = r.children
      ∧ (j.updateFromResponse r).childProgressMode = r.childProgressMode)
    ∧ (j.setProgressApply r = j.updateFromResponse r
      ∧ j.completeApply r = j.updateFromResponse r
      ∧ j.failApply r = j.updateFromResponse r
      ∧ j.refreshApply r = j.updateFromResponse r) :=
  ⟨⟨rfl, rfl, rfl, rfl, rfl, rfl, rfl⟩,
   ⟨rfl, rfl, rfl, rfl, rfl, rfl, rfl, rfl, rfl, rfl, rfl, rfl, rfl, rfl,
    rfl, rfl, rfl⟩,
   ⟨rfl, rfl, rfl, rfl⟩⟩

/-- C9: `createBatch` issues one parent-creation request (declaring the
number of children) first, then one child-creation request per title —
child `i` tagged with the parent id from the parent-creation response and
the 0-based index `i` — and one parent refresh after all children settle;
the phases of `BatchTrace` are in that causal order. -/
theorem createBatch_requests (p : CreateBatchParams) (resp : JobResponse) :
    (createBatchTrace p resp).parentCreate = batchParentBody p
    ∧ (createBatchTrace p resp).parentCreate.totalChildren = p.childTitles.length
    ∧ (createBatchTrace p resp).childCreates.length = p.childTitles.length
    ∧ (∀ i, i < p.childTitles.length →
        ((createBatchTrace p resp).childCreates.getD i dChild).parentJobId = resp.id
        ∧ ((createBatchTrace p resp).childCreates.getD i dChild).childIndex = i
        ∧ ((createBatchTrace p resp).childCreates.getD i dChild).title
            = p.childTitles.getD i "")
    ∧ (createBatchTrace p resp).parentRefreshPath = "/jobs/" ++ resp.id := by
  refine ⟨rfl, rfl, ?_, ?_, rfl⟩
  · simp [createBatchTrace, jsMapWithIndex, mapWithIndex_length]
  · intro i hi
    simp only [createBatchTrace, jsMapWithIndex]
    rw [mapWithIndex_getD _ dChild "" p.childTitles 0 i hi]
    simp [batchChildBody]

/-- C9 witness: the three-title batch issues three child creations; the
second child (index 1) is tagged with the parent's id and index 1. -/
theorem createBatch_requests_witness :
    (createBatchTrace pBatch3 respParent).childCreates.length
        = pBatch3.childTitles.length
    ∧ ((createBatchTrace pBatch3 respParent).childCreates.getD 1 dChild).parentJobId
        = respParent.id
    ∧ ((createBatchTrace pBatch3 respParent).childCreates.getD 1 dChild).childIndex
        = 1 :=
  ⟨(createBatch_requests pBatch3 respParent).2.2.1,
   ((createBatch_requests pBatch3 respParent).2.2.2.1 1 (by decide)).1,
   ((createBatch_requests pBatch3 respParent).2.2.2.1 1 (by decide)).2.1⟩

/-- C10: the constructor's falsy-coalescing defaults make an explicit
`timeout: 0`, `maxRetries: 0` or `baseUrl: ""` indistinguishable from the
omitted field — each resolves to the default (30000 ms, 3 attempts,
`https://api.seenn.io`), so retries cannot be disabled by configuring
`maxRetries` as 0. -/
theorem config_falsy_defaults (c : SeennConfigIn) :
    (resolveConfig { c with timeout := some 0 }).timeout = 30000
    ∧ (resolveConfig { c with maxRetries := some 0 }).maxRetries = 3
    ∧ (resolveConfig { c with baseUrl := some "" }).baseUrl = "https://api.seenn.io"
    ∧ resolveConfig { c with timeout := some 0 }
        = resolveConfig { c with timeout := none }
    ∧ resolveConfig { c with maxRetries := some 0 }
        = resolveConfig { c with maxRetries := none }
    ∧ resolveConfig { c with baseUrl := some "" }
        = resolveConfig { c with baseUrl := none } :=
  ⟨rfl, rfl, rfl, rfl, rfl, rfl⟩

end Seenn
